import Mathlib

/-! lxtempdir: locked temporary directories.

A shallow embedding of `lxtempdir.go` (package `lxtempdir`).  The package has two
operations, `Create` and `TempDir.Close`, both of which are straight-line sequences of
calls to operating-system primitives (`ioutil.TempDir`, `unix.Open`, `unix.Flock`,
`unix.Close`, `os.Remove`).  The primitives are external; they are modelled as transitions
of an explicit `Kernel` state whose outcomes (success, or failure with some error) are chosen
by an arbitrary `Oracle`.  Every primitive invocation is appended to `Kernel.log`, so that
"which primitive is invoked, on what, in which order" is observable.
-/

namespace Lxtempdir

/-! ## Go errors and `github.com/pkg/errors` -/

/-- Go error values.  `errno` is an error produced by a collaborator (an OS error);
`withMessage` is the value built by `errors.Wrap`: a cause together with a message
(the recorded call stack carries no behaviour and is left out).  The Go `error` interface
is nil-able and is represented by `Option GoError`. -/
inductive GoError where
  | errno (code : Nat)
  | withMessage (cause : GoError) (msg : String)
  deriving DecidableEq

/-- Library function `errors.Wrap(err, message)`: nil when `err` is nil, otherwise `err`
annotated with `message`. -/
def errors.Wrap (err : Option GoError) (message : String) : Option GoError :=
  match err with
  | none => none
  | some e => some (GoError.withMessage e message)

/-- Library function `errors.Cause(err)`: follows the chain of causes down to the first
error that is not a wrapper. -/
def errors.Cause : GoError → GoError
  | GoError.errno c => GoError.errno c
  | GoError.withMessage cause _ => errors.Cause cause

/-- The immediate cause and message of a wrapper, `none` for an error that is not one. -/
def GoError.unwrap : GoError → Option (GoError × String)
  | GoError.errno _ => none
  | GoError.withMessage cause msg => some (cause, msg)

/-! ## Constants of `golang.org/x/sys/unix` (linux/amd64) -/

def unix.O_RDONLY : Int := 0
def unix.O_WRONLY : Int := 1
def unix.O_RDWR : Int := 2
def unix.O_ACCMODE : Int := 3
def unix.O_DIRECTORY : Int := 65536
def unix.LOCK_SH : Int := 1
def unix.LOCK_EX : Int := 2
def unix.LOCK_UN : Int := 8

/-! ## The operating system -/

/-- One invocation of an OS primitive, with its arguments. -/
inductive Call where
  | tempDir (dir pfx : String)
  | openat (path : String) (mode : Int) (perm : Nat)
  | flock (fd : Int) (how : Int)
  | close (fd : Int)
  | remove (path : String)
  deriving DecidableEq

/-- Observable OS state: the directories that exist, the open descriptors, the advisory
locks held (descriptor, mode), and the history of primitive invocations, oldest first. -/
structure Kernel where
  dirs : List String
  fds : List Int
  locks : List (Int × Int)
  log : List Call
  deriving DecidableEq

/-- The outcome the OS gives to each primitive call.  It may depend on the whole current
state (history included) and on the arguments; nothing is assumed about it. -/
structure Oracle where
  tempDir : Kernel → String → String → Except GoError String
  openat : Kernel → String → Int → Nat → Except GoError Nat
  flock : Kernel → Int → Int → Option GoError
  close : Kernel → Int → Option GoError
  remove : Kernel → String → Option GoError

/-- Appends an invocation to the history. -/
def Kernel.record (k : Kernel) (c : Call) : Kernel :=
  { k with log := k.log ++ [c] }

/-- Primitive `ioutil.TempDir(dir, prefix)`: on success a directory comes into existence and
its path is returned; on failure the path is empty and nothing is created. -/
def ioutil.TempDir (o : Oracle) (dir pfx : String) (k : Kernel) :
    (String × Option GoError) × Kernel :=
  let k1 := k.record (Call.tempDir dir pfx)
  match o.tempDir k dir pfx with
  | Except.ok p => ((p, none), { k1 with dirs := p :: k1.dirs })
  | Except.error e => (("", some e), k1)

/-- Primitive `unix.Open(path, mode, perm)`: on success a fresh non-negative descriptor is
open and returned; on failure the descriptor returned is `-1` (the system-call convention)
and nothing is opened. -/
def unix.Open (o : Oracle) (path : String) (mode : Int) (perm : Nat) (k : Kernel) :
    (Int × Option GoError) × Kernel :=
  let k1 := k.record (Call.openat path mode perm)
  match o.openat k path mode perm with
  | Except.ok n => (((n : Int), none), { k1 with fds := (n : Int) :: k1.fds })
  | Except.error e => ((-1, some e), k1)

/-- Primitive `unix.Flock(fd, how)`: on success the lock `how` is held through `fd`. -/
def unix.Flock (o : Oracle) (fd : Int) (how : Int) (k : Kernel) : Option GoError × Kernel :=
  let k1 := k.record (Call.flock fd how)
  match o.flock k fd how with
  | none => (none, { k1 with locks := (fd, how) :: k1.locks })
  | some e => (some e, k1)

/-- Primitive `unix.Close(fd)`: on success `fd` is no longer open and every lock held through
it is released; a failed call changes nothing. -/
def unix.Close (o : Oracle) (fd : Int) (k : Kernel) : Option GoError × Kernel :=
  let k1 := k.record (Call.close fd)
  match o.close k fd with
  | none => (none, { k1 with fds := k1.fds.filter (fun x => x ≠ fd),
                             locks := k1.locks.filter (fun l => l.1 ≠ fd) })
  | some e => (some e, k1)

/-- Primitive `os.Remove(path)`: on success `path` no longer exists; a failed call changes
nothing. -/
def os.Remove (o : Oracle) (path : String) (k : Kernel) : Option GoError × Kernel :=
  let k1 := k.record (Call.remove path)
  match o.remove k path with
  | none => (none, { k1 with dirs := k1.dirs.filter (fun x => x ≠ path) })
  | some e => (some e, k1)

/-! ## The package -/

/-- The Go struct `TempDir`: the exported `Path` and the private descriptor `fd`. -/
structure TempDir where
  Path : String
  fd : Int
  deriving DecidableEq

/-- The function literal deferred by `Create` (lines 29-37).  It runs when `Create` returns
and reads the variables `err`, `fd` and `path` of `Create`'s function scope as they are
at that moment. -/
def Create.deferred (o : Oracle) (path : String) (err : Option GoError) (fd : Int)
    (k : Kernel) : Kernel :=
  if err ≠ none then
    let k1 := if fd ≠ -1 then (unix.Close o fd k).2 else k
    (os.Remove o path k1).2
  else k

/-- The Go function `Create(dir, prefix)`.  The result is the returned pair (a nil-able
`*TempDir`, a nil-able error) and the OS state at return.

The first return (line 24) happens before the `defer` statement is reached.  The results of
`Create` are unnamed, so a `return` does not assign to the variable `err`; and the
`err := unix.Flock(...)` of line 44 declares a new variable (`lockErr` below) scoped to
that `if` statement, so the function-scope `err` read by the deferred literal still holds
the value assigned on line 39.  The initial `fd := -1` of line 27 is overwritten on line 39
before anything reads it. -/
def Create (o : Oracle) (dir pfx : String) (k : Kernel) :
    (Option TempDir × Option GoError) × Kernel :=
  let ((path, err), k1) := ioutil.TempDir o dir pfx k
  if err ≠ none then
    ((none, err), k1)
  else
    let ((fd, err), k2) := unix.Open o path unix.O_DIRECTORY 0 k1
    if err ≠ none then
      ((none, errors.Wrap err "failed to open temporary directory"),
        Create.deferred o path err fd k2)
    else
      let (lockErr, k3) := unix.Flock o fd unix.LOCK_SH k2
      if lockErr ≠ none then
        ((none, errors.Wrap lockErr "failed to lock temporary directory"),
          Create.deferred o path err fd k3)
      else
        ((some { Path := path, fd := fd }, none), Create.deferred o path err fd k3)

/-- The Go method `(*TempDir).Close()`.  The result is the returned nil-able error, the
receiver's value after the call, and the OS state at return. -/
def TempDir.Close (o : Oracle) (tempdir : TempDir) (k : Kernel) :
    (Option GoError × TempDir) × Kernel :=
  let (err, k1) := unix.Close o tempdir.fd k
  if err ≠ none then
    ((errors.Wrap err "failed to close temporary directory", tempdir), k1)
  else
    ((none, tempdir), k1)

/-! ## A concrete machine used for examples -/

/-- An empty machine: no directories, no descriptors, no locks, no history. -/
def Kernel.empty : Kernel := { dirs := [], fds := [], locks := [], log := [] }

/-- An OS on which every primitive succeeds: directories are created as `"/tmp/job-1"`,
and opening yields descriptor 3. -/
def Oracle.allOk : Oracle where
  tempDir := fun _ _ _ => Except.ok "/tmp/job-1"
  openat := fun _ _ _ _ => Except.ok 3
  flock := fun _ _ _ => none
  close := fun _ _ => none
  remove := fun _ _ => none

/-- An OS on which opening a directory fails with error 13 and everything else succeeds. -/
def Oracle.openFails : Oracle :=
  { Oracle.allOk with openat := fun _ _ _ _ => Except.error (GoError.errno 13) }

/-- An OS on which taking the lock fails with error 37 and everything else succeeds. -/
def Oracle.lockFails : Oracle :=
  { Oracle.allOk with flock := fun _ _ _ => some (GoError.errno 37) }

/-- An OS on which creating the directory fails with error 28. -/
def Oracle.createFails : Oracle :=
  { Oracle.allOk with tempDir := fun _ _ _ => Except.error (GoError.errno 28) }

/-- An OS on which closing a descriptor fails with error 5 and everything else succeeds. -/
def Oracle.closeFails : Oracle :=
  { Oracle.allOk with close := fun _ _ => some (GoError.errno 5) }

/-- A machine with the standard descriptors 0, 1, 2 open and `/tmp` in place. -/
def Kernel.baseline : Kernel := { dirs := ["/tmp"], fds := [0, 1, 2], locks := [], log := [] }

/-! ## Theorems -/

/-! ### The primitives, outcome by outcome -/

theorem tempDir_state_ok {o : Oracle} {dir pfx : String} {k : Kernel} {p : String}
    (h : (ioutil.TempDir o dir pfx k).1 = (p, none)) :
    (ioutil.TempDir o dir pfx k).2 =
      { k with dirs := p :: k.dirs, log := k.log ++ [Call.tempDir dir pfx] } := by
  unfold ioutil.TempDir at h ⊢
  cases ht : o.tempDir k dir pfx <;> simp_all [Kernel.record]

theorem tempDir_state_err {o : Oracle} {dir pfx : String} {k : Kernel} {e : GoError}
    (h : (ioutil.TempDir o dir pfx k).1.2 = some e) :
    (ioutil.TempDir o dir pfx k).2 = k.record (Call.tempDir dir pfx) := by
  unfold ioutil.TempDir at h ⊢
  cases ht : o.tempDir k dir pfx <;> simp_all

theorem open_state_ok {o : Oracle} {path : String} {mode : Int} {perm : Nat} {k : Kernel}
    {d : Int} (h : (unix.Open o path mode perm k).1 = (d, none)) :
    (unix.Open o path mode perm k).2 =
      { k with fds := d :: k.fds, log := k.log ++ [Call.openat path mode perm] } := by
  unfold unix.Open at h ⊢
  cases ht : o.openat k path mode perm <;> simp_all [Kernel.record]

theorem open_state_err {o : Oracle} {path : String} {mode : Int} {perm : Nat} {k : Kernel}
    {e : GoError} (h : (unix.Open o path mode perm k).1.2 = some e) :
    (unix.Open o path mode perm k).1.1 = -1 ∧
    (unix.Open o path mode perm k).2 = k.record (Call.openat path mode perm) := by
  unfold unix.Open at h ⊢
  cases ht : o.openat k path mode perm <;> simp_all

theorem flock_state_ok {o : Oracle} {fd how : Int} {k : Kernel}
    (h : (unix.Flock o fd how k).1 = none) :
    (unix.Flock o fd how k).2 =
      { k with locks := (fd, how) :: k.locks, log := k.log ++ [Call.flock fd how] } := by
  unfold unix.Flock at h ⊢
  cases ht : o.flock k fd how <;> simp_all [Kernel.record]

theorem flock_state_err {o : Oracle} {fd how : Int} {k : Kernel} {e : GoError}
    (h : (unix.Flock o fd how k).1 = some e) :
    (unix.Flock o fd how k).2 = k.record (Call.flock fd how) := by
  unfold unix.Flock at h ⊢
  cases ht : o.flock k fd how <;> simp_all

theorem close_state (o : Oracle) (fd : Int) (k : Kernel) :
    (unix.Close o fd k).2.log = k.log ++ [Call.close fd] ∧
    (unix.Close o fd k).2.dirs = k.dirs := by
  unfold unix.Close
  cases ht : o.close k fd <;> simp [Kernel.record]

theorem close_state_ok {o : Oracle} {fd : Int} {k : Kernel}
    (h : (unix.Close o fd k).1 = none) :
    (unix.Close o fd k).2.fds = k.fds.filter (fun x => x ≠ fd) ∧
    (unix.Close o fd k).2.locks = k.locks.filter (fun l => l.1 ≠ fd) := by
  unfold unix.Close at h ⊢
  cases ht : o.close k fd <;> simp_all [Kernel.record]

theorem remove_state (o : Oracle) (path : String) (k : Kernel) :
    (os.Remove o path k).2.log = k.log ++ [Call.remove path] ∧
    (os.Remove o path k).2.fds = k.fds ∧
    (os.Remove o path k).2.locks = k.locks ∧
    ((os.Remove o path k).1 = none → path ∉ (os.Remove o path k).2.dirs) := by
  unfold os.Remove
  cases ht : o.remove k path <;> simp [Kernel.record]

/-! ### `Create`, path by path -/

theorem Create_creation_failed {o : Oracle} {dir pfx : String} {k : Kernel} {e : GoError}
    (h : (ioutil.TempDir o dir pfx k).1.2 = some e) :
    Create o dir pfx k = ((none, some e), (ioutil.TempDir o dir pfx k).2) := by
  unfold Create
  rcases hr : ioutil.TempDir o dir pfx k with ⟨⟨path, err⟩, k1⟩
  simp_all

theorem Create_open_failed {o : Oracle} {dir pfx : String} {k : Kernel} {p : String}
    {e : GoError} (hc : (ioutil.TempDir o dir pfx k).1 = (p, none))
    (ho : (unix.Open o p unix.O_DIRECTORY 0 (ioutil.TempDir o dir pfx k).2).1.2 = some e) :
    Create o dir pfx k =
      ((none, some (GoError.withMessage e "failed to open temporary directory")),
        (os.Remove o p (unix.Open o p unix.O_DIRECTORY 0 (ioutil.TempDir o dir pfx k).2).2).2) := by
  have hfd := (open_state_err ho).1
  unfold Create Create.deferred
  rcases hr : ioutil.TempDir o dir pfx k with ⟨⟨path, err⟩, k1⟩
  rw [hr] at hc ho hfd
  obtain ⟨rfl, rfl⟩ : path = p ∧ err = none := by simpa using hc
  rcases hr2 : unix.Open o path unix.O_DIRECTORY 0 k1 with ⟨⟨fd, err2⟩, k2⟩
  rw [hr2] at ho hfd
  simp only at ho hfd
  subst ho hfd
  simp [hr2, errors.Wrap]

theorem Create_lock_failed {o : Oracle} {dir pfx : String} {k : Kernel} {p : String}
    {d : Int} {e : GoError} (hc : (ioutil.TempDir o dir pfx k).1 = (p, none))
    (ho : (unix.Open o p unix.O_DIRECTORY 0 (ioutil.TempDir o dir pfx k).2).1 = (d, none))
    (hl : (unix.Flock o d unix.LOCK_SH
      (unix.Open o p unix.O_DIRECTORY 0 (ioutil.TempDir o dir pfx k).2).2).1 = some e) :
    Create o dir pfx k =
      ((none, some (GoError.withMessage e "failed to lock temporary directory")),
        (unix.Flock o d unix.LOCK_SH
          (unix.Open o p unix.O_DIRECTORY 0 (ioutil.TempDir o dir pfx k).2).2).2) := by
  unfold Create Create.deferred
  rcases hr : ioutil.TempDir o dir pfx k with ⟨⟨path, err⟩, k1⟩
  rw [hr] at hc ho hl
  obtain ⟨rfl, rfl⟩ : path = p ∧ err = none := by simpa using hc
  rcases hr2 : unix.Open o path unix.O_DIRECTORY 0 k1 with ⟨⟨fd, err2⟩, k2⟩
  rw [hr2] at ho hl
  obtain ⟨rfl, rfl⟩ : fd = d ∧ err2 = none := by simpa using ho
  rcases hr3 : unix.Flock o fd unix.LOCK_SH k2 with ⟨lockErr, k3⟩
  rw [hr3] at hl
  simp only at hl
  subst hl
  simp [hr2, hr3, errors.Wrap]

theorem Create_succeeded {o : Oracle} {dir pfx : String} {k : Kernel} {p : String}
    {d : Int} (hc : (ioutil.TempDir o dir pfx k).1 = (p, none))
    (ho : (unix.Open o p unix.O_DIRECTORY 0 (ioutil.TempDir o dir pfx k).2).1 = (d, none))
    (hl : (unix.Flock o d unix.LOCK_SH
      (unix.Open o p unix.O_DIRECTORY 0 (ioutil.TempDir o dir pfx k).2).2).1 = none) :
    Create o dir pfx k =
      ((some { Path := p, fd := d }, none),
        (unix.Flock o d unix.LOCK_SH
          (unix.Open o p unix.O_DIRECTORY 0 (ioutil.TempDir o dir pfx k).2).2).2) := by
  unfold Create Create.deferred
  rcases hr : ioutil.TempDir o dir pfx k with ⟨⟨path, err⟩, k1⟩
  rw [hr] at hc ho hl
  obtain ⟨rfl, rfl⟩ : path = p ∧ err = none := by simpa using hc
  rcases hr2 : unix.Open o path unix.O_DIRECTORY 0 k1 with ⟨⟨fd, err2⟩, k2⟩
  rw [hr2] at ho hl
  obtain ⟨rfl, rfl⟩ : fd = d ∧ err2 = none := by simpa using ho
  rcases hr3 : unix.Flock o fd unix.LOCK_SH k2 with ⟨lockErr, k3⟩
  rw [hr3] at hl
  simp only at hl
  subst hl
  simp [hr2, hr3]

/-- The pair returned by `Create`, in terms of the results of the three acquisition
steps as `Create` invokes them. -/
theorem Create_result (o : Oracle) (dir pfx : String) (k : Kernel)
    (r1 : (String × Option GoError) × Kernel) (r2 : (Int × Option GoError) × Kernel)
    (r3 : Option GoError × Kernel)
    (h1 : ioutil.TempDir o dir pfx k = r1)
    (h2 : unix.Open o r1.1.1 unix.O_DIRECTORY 0 r1.2 = r2)
    (h3 : unix.Flock o r2.1.1 unix.LOCK_SH r2.2 = r3) :
    (Create o dir pfx k).1 =
      if r1.1.2 ≠ none then (none, r1.1.2)
      else if r2.1.2 ≠ none then
        (none, errors.Wrap r2.1.2 "failed to open temporary directory")
      else if r3.1 ≠ none then
        (none, errors.Wrap r3.1 "failed to lock temporary directory")
      else (some { Path := r1.1.1, fd := r2.1.1 }, none) := by
  subst h1 h2 h3
  unfold Create
  split_ifs <;> simp_all

/-- The invocations `Create` adds to the history, in terms of the results of the
acquisition steps as `Create` invokes them. -/
theorem Create_log (o : Oracle) (dir pfx : String) (k : Kernel)
    (r1 : (String × Option GoError) × Kernel) (r2 : (Int × Option GoError) × Kernel)
    (h1 : ioutil.TempDir o dir pfx k = r1)
    (h2 : unix.Open o r1.1.1 unix.O_DIRECTORY 0 r1.2 = r2) :
    (Create o dir pfx k).2.log = k.log ++
      (if r1.1.2 ≠ none then [Call.tempDir dir pfx]
      else if r2.1.2 ≠ none then
        [Call.tempDir dir pfx, Call.openat r1.1.1 unix.O_DIRECTORY 0, Call.remove r1.1.1]
      else
        [Call.tempDir dir pfx, Call.openat r1.1.1 unix.O_DIRECTORY 0,
          Call.flock r2.1.1 unix.LOCK_SH]) := by
  subst h1 h2
  cases hc : (ioutil.TempDir o dir pfx k).1.2 with
  | some e =>
    rw [Create_creation_failed hc, tempDir_state_err hc]
    simp [Kernel.record]
  | none =>
    have hc1 : (ioutil.TempDir o dir pfx k).1 = ((ioutil.TempDir o dir pfx k).1.1, none) :=
      Prod.ext rfl hc
    cases ho : (unix.Open o (ioutil.TempDir o dir pfx k).1.1 unix.O_DIRECTORY 0
        (ioutil.TempDir o dir pfx k).2).1.2 with
    | some e =>
      rw [Create_open_failed hc1 ho, (remove_state _ _ _).1, (open_state_err ho).2,
        tempDir_state_ok hc1]
      simp [Kernel.record]
    | none =>
      have ho1 : (unix.Open o (ioutil.TempDir o dir pfx k).1.1 unix.O_DIRECTORY 0
          (ioutil.TempDir o dir pfx k).2).1 =
          ((unix.Open o (ioutil.TempDir o dir pfx k).1.1 unix.O_DIRECTORY 0
            (ioutil.TempDir o dir pfx k).2).1.1, none) := Prod.ext rfl ho
      cases hl : (unix.Flock o (unix.Open o (ioutil.TempDir o dir pfx k).1.1 unix.O_DIRECTORY 0
          (ioutil.TempDir o dir pfx k).2).1.1 unix.LOCK_SH
          (unix.Open o (ioutil.TempDir o dir pfx k).1.1 unix.O_DIRECTORY 0
            (ioutil.TempDir o dir pfx k).2).2).1 with
      | some e =>
        rw [Create_lock_failed hc1 ho1 hl, flock_state_err hl, open_state_ok ho1,
          tempDir_state_ok hc1]
        simp [Kernel.record]
      | none =>
        rw [Create_succeeded hc1 ho1 hl, flock_state_ok hl, open_state_ok ho1,
          tempDir_state_ok hc1]
        simp

/-- On the lock-failure path the deferred literal sees a nil `err`: the state `Create`
leaves is the one left by the failed lock call, with the descriptor still open and the
directory still in place. -/
theorem Create_lock_failed_state {o : Oracle} {dir pfx : String} {k : Kernel} {p : String}
    {d : Int} {e : GoError} (hc : (ioutil.TempDir o dir pfx k).1 = (p, none))
    (ho : (unix.Open o p unix.O_DIRECTORY 0 (ioutil.TempDir o dir pfx k).2).1 = (d, none))
    (hl : (unix.Flock o d unix.LOCK_SH
      (unix.Open o p unix.O_DIRECTORY 0 (ioutil.TempDir o dir pfx k).2).2).1 = some e) :
    (Create o dir pfx k).2 =
      { dirs := p :: k.dirs, fds := d :: k.fds, locks := k.locks,
        log := k.log ++ [Call.tempDir dir pfx, Call.openat p unix.O_DIRECTORY 0,
          Call.flock d unix.LOCK_SH] } := by
  rw [Create_lock_failed hc ho hl, flock_state_err hl, open_state_ok ho, tempDir_state_ok hc]
  simp [Kernel.record]

/-- On the success path followed by a successful `Close`, the open descriptors are back to
what they were before `Create`, provided the descriptor the open returned was not already
open. -/
theorem Create_then_Close_fds {o : Oracle} {dir pfx : String} {k : Kernel} {p : String}
    {d : Int} (hc : (ioutil.TempDir o dir pfx k).1 = (p, none))
    (ho : (unix.Open o p unix.O_DIRECTORY 0 (ioutil.TempDir o dir pfx k).2).1 = (d, none))
    (hl : (unix.Flock o d unix.LOCK_SH
      (unix.Open o p unix.O_DIRECTORY 0 (ioutil.TempDir o dir pfx k).2).2).1 = none)
    (hfresh : d ∉ k.fds)
    (hcl : (unix.Close o d (Create o dir pfx k).2).1 = none) :
    (TempDir.Close o { Path := p, fd := d } (Create o dir pfx k).2).2.fds = k.fds := by
  have hfds : (Create o dir pfx k).2.fds = d :: k.fds := by
    rw [Create_succeeded hc ho hl, flock_state_ok hl, open_state_ok ho, tempDir_state_ok hc]
  have hk := (close_state_ok hcl).1
  unfold TempDir.Close
  simp only [hcl, ne_eq, not_true_eq_false, if_false]
  rw [hk, hfds, List.filter_cons_of_neg (by simp), List.filter_eq_self]
  intro x hx
  have : x ≠ d := fun h => hfresh (h ▸ hx)
  simpa using this

/-! ### The claims -/

/-- C5: when the directory-creation primitive fails with error `e`, `Create` returns a nil
`TempDir` together with exactly `e`; the only primitive invoked is that one creation call,
and the state is the one that call left (nothing opened, locked, closed or removed). -/
theorem create_creation_failure_short_circuits (o : Oracle) (dir pfx : String) (k : Kernel)
    (e : GoError) (h : (ioutil.TempDir o dir pfx k).1.2 = some e) :
    (Create o dir pfx k).1 = (none, some e) ∧
    (Create o dir pfx k).2 = (ioutil.TempDir o dir pfx k).2 ∧
    (Create o dir pfx k).2.log = k.log ++ [Call.tempDir dir pfx] ∧
    (Create o dir pfx k).2.dirs = k.dirs ∧
    (Create o dir pfx k).2.fds = k.fds ∧
    (Create o dir pfx k).2.locks = k.locks := by
  rw [Create_creation_failed h, tempDir_state_err h]
  simp [Kernel.record]

/-- C5 at a concrete input: creation fails with error 28 on an empty machine. -/
theorem create_creation_failure_short_circuits_witness :
    (Create Oracle.createFails "/tmp" "job-" Kernel.empty).1 = (none, some (GoError.errno 28)) ∧
    (Create Oracle.createFails "/tmp" "job-" Kernel.empty).2.log =
      [Call.tempDir "/tmp" "job-"] :=
  have h := create_creation_failure_short_circuits Oracle.createFails "/tmp" "job-"
    Kernel.empty (GoError.errno 28) (by decide)
  ⟨h.1, h.2.2.1⟩

/-- C2: when directory creation succeeds with path `p` and opening `p` fails with `e`,
`Create` returns a nil `TempDir` and a non-nil error (`e` wrapped with the open message); the
primitives it invokes are exactly creation, the open of `p`, and one removal of `p`, in
that order, so neither the lock primitive nor close is invoked; when that removal succeeds
`p` does not exist afterwards; the open descriptors and the locks are as before the call. -/
theorem create_open_failure_rollback (o : Oracle) (dir pfx : String) (k : Kernel)
    (p : String) (e : GoError)
    (hc : (ioutil.TempDir o dir pfx k).1 = (p, none))
    (ho : (unix.Open o p unix.O_DIRECTORY 0 (ioutil.TempDir o dir pfx k).2).1.2 = some e) :
    (Create o dir pfx k).1 =
      (none, some (GoError.withMessage e "failed to open temporary directory")) ∧
    (Create o dir pfx k).2.log =
      k.log ++ [Call.tempDir dir pfx, Call.openat p unix.O_DIRECTORY 0, Call.remove p] ∧
    ((os.Remove o p (unix.Open o p unix.O_DIRECTORY 0 (ioutil.TempDir o dir pfx k).2).2).1 = none →
      p ∉ (Create o dir pfx k).2.dirs) ∧
    (Create o dir pfx k).2.fds = k.fds ∧
    (Create o dir pfx k).2.locks = k.locks := by
  rw [Create_open_failed hc ho]
  have hrm := remove_state o p (unix.Open o p unix.O_DIRECTORY 0 (ioutil.TempDir o dir pfx k).2).2
  refine ⟨rfl, ?_, hrm.2.2.2, ?_, ?_⟩
  · rw [hrm.1, (open_state_err ho).2, tempDir_state_ok hc]
    simp [Kernel.record]
  · rw [hrm.2.1, (open_state_err ho).2, tempDir_state_ok hc]
    simp [Kernel.record]
  · rw [hrm.2.2.1, (open_state_err ho).2, tempDir_state_ok hc]
    simp [Kernel.record]

/-- C2 at a concrete input: opening fails with error 13 on an empty machine; the directory
`/tmp/job-1` that was created is removed again. -/
theorem create_open_failure_rollback_witness :
    (Create Oracle.openFails "/tmp" "job-" Kernel.empty).1 =
      (none, some (GoError.withMessage (GoError.errno 13) "failed to open temporary directory")) ∧
    (Create Oracle.openFails "/tmp" "job-" Kernel.empty).2.log =
      [Call.tempDir "/tmp" "job-", Call.openat "/tmp/job-1" unix.O_DIRECTORY 0,
        Call.remove "/tmp/job-1"] ∧
    "/tmp/job-1" ∉ (Create Oracle.openFails "/tmp" "job-" Kernel.empty).2.dirs :=
  have h := create_open_failure_rollback Oracle.openFails "/tmp" "job-" Kernel.empty
    "/tmp/job-1" (GoError.errno 13) (by decide) (by decide)
  ⟨h.1, h.2.1, h.2.2.1 (by decide)⟩

/-- C3: when directory creation returns path `p`, the open returns descriptor `d` and the
shared lock on `d` is acquired, `Create` returns a nil error and a `TempDir` with `Path = p`
and descriptor `d`; the primitives invoked are exactly creation, open and lock (no close, no
remove), and the state gains exactly the directory `p`, the open descriptor `d` and the
shared lock held through `d`. -/
theorem create_success_postcondition (o : Oracle) (dir pfx : String) (k : Kernel)
    (p : String) (d : Int)
    (hc : (ioutil.TempDir o dir pfx k).1 = (p, none))
    (ho : (unix.Open o p unix.O_DIRECTORY 0 (ioutil.TempDir o dir pfx k).2).1 = (d, none))
    (hl : (unix.Flock o d unix.LOCK_SH
      (unix.Open o p unix.O_DIRECTORY 0 (ioutil.TempDir o dir pfx k).2).2).1 = none) :
    (Create o dir pfx k).1 = (some { Path := p, fd := d }, none) ∧
    (Create o dir pfx k).2.log =
      k.log ++ [Call.tempDir dir pfx, Call.openat p unix.O_DIRECTORY 0,
        Call.flock d unix.LOCK_SH] ∧
    (Create o dir pfx k).2.dirs = p :: k.dirs ∧
    (Create o dir pfx k).2.fds = d :: k.fds ∧
    (Create o dir pfx k).2.locks = (d, unix.LOCK_SH) :: k.locks := by
  rw [Create_succeeded hc ho hl, flock_state_ok hl, open_state_ok ho, tempDir_state_ok hc]
  simp

/-- C3 at a concrete input: every primitive succeeds on an empty machine. -/
theorem create_success_postcondition_witness :
    (Create Oracle.allOk "/tmp" "job-" Kernel.empty).1 =
      (some { Path := "/tmp/job-1", fd := 3 }, none) ∧
    (Create Oracle.allOk "/tmp" "job-" Kernel.empty).2.dirs = ["/tmp/job-1"] ∧
    (Create Oracle.allOk "/tmp" "job-" Kernel.empty).2.fds = [3] ∧
    (Create Oracle.allOk "/tmp" "job-" Kernel.empty).2.locks = [(3, unix.LOCK_SH)] :=
  have h := create_success_postcondition Oracle.allOk "/tmp" "job-" Kernel.empty
    "/tmp/job-1" 3 (by decide) (by decide) (by decide)
  ⟨h.1, h.2.2.1, h.2.2.2.1, h.2.2.2.2⟩

/-- C4: whatever the underlying close returns, the only primitive `Close` invokes is one
close of the held descriptor (no removal, no unlock call); the directories that exist are the
same after as before, and the receiver, its `Path` in particular, is unchanged. -/
theorem close_leaves_directory_alone (o : Oracle) (t : TempDir) (k : Kernel) :
    (TempDir.Close o t k).2.log = k.log ++ [Call.close t.fd] ∧
    (TempDir.Close o t k).2.dirs = k.dirs ∧
    (TempDir.Close o t k).1.2 = t ∧
    (TempDir.Close o t k).1.2.Path = t.Path := by
  have hs := close_state o t.fd k
  unfold TempDir.Close
  rcases hcl : unix.Close o t.fd k with ⟨err, k1⟩
  rw [hcl] at hs
  simp only
  split_ifs <;> exact ⟨hs.1, hs.2, rfl, rfl⟩

/-- C7: `Close` invokes the close primitive exactly once, on the held descriptor; it returns
nil exactly when that call returns nil, and when that call returns an error `e` it returns
`e` wrapped with the close message, whose cause is `e`. -/
theorem close_fails_iff_primitive_fails (o : Oracle) (t : TempDir) (k : Kernel) :
    (TempDir.Close o t k).2.log = k.log ++ [Call.close t.fd] ∧
    ((TempDir.Close o t k).1.1 = none ↔ (unix.Close o t.fd k).1 = none) ∧
    (∀ e, (unix.Close o t.fd k).1 = some e →
      (TempDir.Close o t k).1.1 =
        some (GoError.withMessage e "failed to close temporary directory")) ∧
    ((TempDir.Close o t k).1.1.bind GoError.unwrap).map Prod.fst = (unix.Close o t.fd k).1 := by
  have hs := close_state o t.fd k
  unfold TempDir.Close
  cases hcl : (unix.Close o t.fd k).1 with
  | none => simp [hcl, hs.1]
  | some e => simp [hcl, hs.1, errors.Wrap, GoError.unwrap]

/-- C7 at a concrete input: closing descriptor 3 fails with error 5. -/
theorem close_fails_iff_primitive_fails_witness :
    (TempDir.Close Oracle.closeFails { Path := "/tmp/job-1", fd := 3 } Kernel.empty).1.1 =
      some (GoError.withMessage (GoError.errno 5) "failed to close temporary directory") :=
  (close_fails_iff_primitive_fails Oracle.closeFails { Path := "/tmp/job-1", fd := 3 }
    Kernel.empty).2.2.1 (GoError.errno 5) (by decide)

/-- C8: for a failing `Create`, with `r1`, `r2`, `r3` the results of the creation, open and
lock steps, the returned pair is the same when the close and remove primitives are replaced
by any others (so whatever the rollback calls return), and the error is that of the first
failing step: the creation error, or the open error wrapped, or the lock error wrapped. -/
theorem create_error_ignores_rollback (o : Oracle) (dir pfx : String) (k : Kernel)
    (r1 : (String × Option GoError) × Kernel) (r2 : (Int × Option GoError) × Kernel)
    (r3 : Option GoError × Kernel)
    (h1 : ioutil.TempDir o dir pfx k = r1)
    (h2 : unix.Open o r1.1.1 unix.O_DIRECTORY 0 r1.2 = r2)
    (h3 : unix.Flock o r2.1.1 unix.LOCK_SH r2.2 = r3)
    (hfail : (Create o dir pfx k).1.2 ≠ none)
    (cl : Kernel → Int → Option GoError) (rm : Kernel → String → Option GoError) :
    (Create { o with close := cl, remove := rm } dir pfx k).1 = (Create o dir pfx k).1 ∧
    (Create o dir pfx k).1 =
      (none,
        if r1.1.2 ≠ none then r1.1.2
        else if r2.1.2 ≠ none then errors.Wrap r2.1.2 "failed to open temporary directory"
        else errors.Wrap r3.1 "failed to lock temporary directory") := by
  have hres := Create_result o dir pfx k r1 r2 r3 h1 h2 h3
  have hres2 := Create_result { o with close := cl, remove := rm } dir pfx k r1 r2 r3 h1 h2 h3
  refine ⟨hres2.trans hres.symm, ?_⟩
  rw [hres] at hfail ⊢
  split_ifs at hfail ⊢ <;> simp_all

/-- C8 at a concrete input: the open fails with error 13; making the rollback close and
remove fail as well does not change what `Create` returns. -/
theorem create_error_ignores_rollback_witness :
    (Create { Oracle.openFails with close := fun _ _ => some (GoError.errno 9),
                                    remove := fun _ _ => some (GoError.errno 39) }
      "/tmp" "job-" Kernel.empty).1 = (Create Oracle.openFails "/tmp" "job-" Kernel.empty).1 ∧
    (Create Oracle.openFails "/tmp" "job-" Kernel.empty).1 =
      (none, some (GoError.withMessage (GoError.errno 13) "failed to open temporary directory")) :=
  have h := create_error_ignores_rollback Oracle.openFails "/tmp" "job-" Kernel.empty
    _ _ _ rfl rfl rfl (by decide) (fun _ _ => some (GoError.errno 9))
    (fun _ _ => some (GoError.errno 39))
  ⟨h.1, h.2.trans (by decide)⟩

/-- C10: with `r1` the result of the creation call and `r2` the result of the open call,
the primitives `Create` invokes are: creation on the caller's `dir` and `prefix`; then, only
if creation succeeded, one open of the returned path with mode `O_DIRECTORY` (access bits
read-only) and permission 0; then, only if the open succeeded, one lock of the returned
descriptor with `LOCK_SH` (which is not `LOCK_EX`). -/
theorem create_step_order (o : Oracle) (dir pfx : String) (k : Kernel)
    (r1 : (String × Option GoError) × Kernel) (r2 : (Int × Option GoError) × Kernel)
    (h1 : ioutil.TempDir o dir pfx k = r1)
    (h2 : unix.Open o r1.1.1 unix.O_DIRECTORY 0 r1.2 = r2) :
    (Create o dir pfx k).2.log = k.log ++
      (if r1.1.2 ≠ none then [Call.tempDir dir pfx]
      else if r2.1.2 ≠ none then
        [Call.tempDir dir pfx, Call.openat r1.1.1 unix.O_DIRECTORY 0, Call.remove r1.1.1]
      else
        [Call.tempDir dir pfx, Call.openat r1.1.1 unix.O_DIRECTORY 0,
          Call.flock r2.1.1 unix.LOCK_SH]) ∧
    Int.land unix.O_DIRECTORY unix.O_ACCMODE = unix.O_RDONLY ∧
    unix.LOCK_SH ≠ unix.LOCK_EX :=
  ⟨Create_log o dir pfx k r1 r2 h1 h2, by decide, by decide⟩

/-- C10 at a concrete input: every primitive succeeds on an empty machine. -/
theorem create_step_order_witness :
    (Create Oracle.allOk "/tmp" "job-" Kernel.empty).2.log =
      [Call.tempDir "/tmp" "job-", Call.openat "/tmp/job-1" unix.O_DIRECTORY 0,
        Call.flock 3 unix.LOCK_SH] :=
  (create_step_order Oracle.allOk "/tmp" "job-" Kernel.empty _ _ rfl rfl).1.trans (by decide)

/-- C9, as the code has it: when the open, the lock or the close fails with `e`, the error
returned by `Create` or `Close` is `e` wrapped with the message of that step (three
different messages), so its cause is `e`; when directory creation fails with `e`, `Create`
returns `e` itself, unchanged and unwrapped. -/
theorem failures_wrapped_except_creation (o : Oracle) (dir pfx : String) (k : Kernel)
    (t : TempDir) :
    (∀ e, (ioutil.TempDir o dir pfx k).1.2 = some e → (Create o dir pfx k).1.2 = some e) ∧
    (∀ p e, (ioutil.TempDir o dir pfx k).1 = (p, none) →
      (unix.Open o p unix.O_DIRECTORY 0 (ioutil.TempDir o dir pfx k).2).1.2 = some e →
      (Create o dir pfx k).1.2 =
        some (GoError.withMessage e "failed to open temporary directory")) ∧
    (∀ p d e, (ioutil.TempDir o dir pfx k).1 = (p, none) →
      (unix.Open o p unix.O_DIRECTORY 0 (ioutil.TempDir o dir pfx k).2).1 = (d, none) →
      (unix.Flock o d unix.LOCK_SH
        (unix.Open o p unix.O_DIRECTORY 0 (ioutil.TempDir o dir pfx k).2).2).1 = some e →
      (Create o dir pfx k).1.2 =
        some (GoError.withMessage e "failed to lock temporary directory")) ∧
    (∀ e, (unix.Close o t.fd k).1 = some e →
      (TempDir.Close o t k).1.1 =
        some (GoError.withMessage e "failed to close temporary directory")) ∧
    (∀ e msg, GoError.unwrap (GoError.withMessage e msg) = some (e, msg)) := by
  refine ⟨?_, ?_, ?_, ?_, fun _ _ => rfl⟩
  · intro e h
    rw [Create_creation_failed h]
  · intro p e hc ho
    rw [Create_open_failed hc ho]
  · intro p d e hc ho hl
    rw [Create_lock_failed hc ho hl]
  · intro e h
    unfold TempDir.Close
    simp [h, errors.Wrap]

/-- C9 at concrete inputs: a lock failure is returned wrapped, a creation failure is
returned as it is. -/
theorem failures_wrapped_except_creation_witness :
    (Create Oracle.lockFails "/tmp" "job-" Kernel.empty).1.2 =
      some (GoError.withMessage (GoError.errno 37) "failed to lock temporary directory") ∧
    (Create Oracle.createFails "/tmp" "job-" Kernel.empty).1.2 = some (GoError.errno 28) :=
  ⟨(failures_wrapped_except_creation Oracle.lockFails "/tmp" "job-" Kernel.empty
      { Path := "", fd := 0 }).2.2.1 "/tmp/job-1" 3 (GoError.errno 37)
      (by decide) (by decide) (by decide),
    (failures_wrapped_except_creation Oracle.createFails "/tmp" "job-" Kernel.empty
      { Path := "", fd := 0 }).1 (GoError.errno 28) (by decide)⟩

/-- C9 as stated fails for the creation step: when `ioutil.TempDir` fails with the bare
error 28, the error `Create` returns is that bare error; it is not a wrapper, carries no
message, and has no cause. -/
theorem creation_error_returned_unwrapped :
    (ioutil.TempDir Oracle.createFails "/tmp" "job-" Kernel.empty).1.2 =
      some (GoError.errno 28) ∧
    (Create Oracle.createFails "/tmp" "job-" Kernel.empty).1.2 = some (GoError.errno 28) ∧
    (¬ ∃ cause msg, (Create Oracle.createFails "/tmp" "job-" Kernel.empty).1.2 =
      some (GoError.withMessage cause msg)) ∧
    ((Create Oracle.createFails "/tmp" "job-" Kernel.empty).1.2.bind GoError.unwrap) = none := by
  refine ⟨by decide, by decide, ?_, by decide⟩
  rintro ⟨cause, msg, h⟩
  have h2 : (Create Oracle.createFails "/tmp" "job-" Kernel.empty).1.2 =
      some (GoError.errno 28) := by decide
  rw [h2] at h
  cases h

/-- C1 is not met by the code: creation and open succeed (path `/tmp/job-1`, descriptor 3)
and the lock fails with error 37; `Create` returns the wrapped lock error, yet it invokes
neither close nor remove, and at return descriptor 3 is still open and `/tmp/job-1` still
exists. -/
theorem create_lock_failure_leaves_resources :
    (Create Oracle.lockFails "/tmp" "job-" Kernel.empty).1 =
      (none, some (GoError.withMessage (GoError.errno 37) "failed to lock temporary directory")) ∧
    (Create Oracle.lockFails "/tmp" "job-" Kernel.empty).2.log =
      [Call.tempDir "/tmp" "job-", Call.openat "/tmp/job-1" unix.O_DIRECTORY 0,
        Call.flock 3 unix.LOCK_SH] ∧
    Call.close 3 ∉ (Create Oracle.lockFails "/tmp" "job-" Kernel.empty).2.log ∧
    Call.remove "/tmp/job-1" ∉ (Create Oracle.lockFails "/tmp" "job-" Kernel.empty).2.log ∧
    (3 : Int) ∈ (Create Oracle.lockFails "/tmp" "job-" Kernel.empty).2.fds ∧
    "/tmp/job-1" ∈ (Create Oracle.lockFails "/tmp" "job-" Kernel.empty).2.dirs := by
  decide

/-- C6 is not met by the code on the lock-failure path: starting with descriptors 0, 1, 2
open, `Create` returns an error and the open descriptors are 3, 0, 1, 2, not the
baseline. -/
theorem create_lock_failure_leaks_descriptor :
    (Create Oracle.lockFails "/tmp" "job-" Kernel.baseline).1.1 = none ∧
    (Create Oracle.lockFails "/tmp" "job-" Kernel.baseline).1.2 ≠ none ∧
    (Create Oracle.lockFails "/tmp" "job-" Kernel.baseline).2.fds = [3, 0, 1, 2] ∧
    (Create Oracle.lockFails "/tmp" "job-" Kernel.baseline).2.fds ≠ Kernel.baseline.fds := by
  decide

end Lxtempdir
